import Mathlib

/-!
Verification of the nearest-neighbor source-retrieval core of the
Academic-Assignment-Helper backend.

The embedded code is `backend/rag_service.py` (`generate_embedding`,
`search_sources`) and the `/sources` endpoint `get_sources` of
`backend/main.py`, over the `academic_sources` table of `backend/models.py`.

Modelling conventions:
* numpy float vectors become `List ℝ`;
* the external embedding provider (`genai.embed_content`) is an explicit
  parameter mapping `(content, task_type, output_dimensionality)` to either a
  raw vector or an error (a raised exception, rendered by its message);
* the SQL statement `SELECT ... ORDER BY embedding <=> :q LIMIT :top_k` is a
  relation between the table contents and the returned rows: SQL promises a
  permutation of the table that is pairwise non-decreasing in the ordering key
  (pgvector cosine distance) truncated to `top_k` rows, and nothing more — in
  particular no tie-breaking order between rows at equal distance;
* a Python function that may raise returns `Except String`.
-/

noncomputable section

open List

/-- Sum of squares of the entries of a vector. -/
def sumSq (v : List ℝ) : ℝ := (v.map fun x => x * x).sum

/-- L2 norm of a vector, as computed by `np.linalg.norm(embedding)` in
`generate_embedding`. -/
def l2norm (v : List ℝ) : ℝ := Real.sqrt (sumSq v)

/-- The line `normalized_embedding = embedding / np.linalg.norm(embedding)` of
`generate_embedding`: numpy broadcasts the scalar division over every
component.  No zero-norm check is performed, exactly as in the source. -/
def normalized_embedding (v : List ℝ) : List ℝ := v.map fun x => x / l2norm v

/-- The external embedding provider (`genai.embed_content` with fixed model
`models/embedding-001`): from the content text, the task type and the requested
output dimensionality it yields a raw vector or fails. -/
def Provider : Type := String → String → Nat → Except String (List ℝ)

/-- Function `generate_embedding` of `backend/rag_service.py` (lines 11-27):
call the provider, turn the returned vector into a numpy array and normalize
it.  The `except` block prints and then re-raises the same exception
(`raise # Re-raise for upstream handling`), so a provider error propagates
unchanged, which is exactly `Except.map`.  In the source `task_type` defaults
to `"RETRIEVAL_DOCUMENT"` and `output_dimensionality` to `1536`; call sites
below pass both explicitly. -/
def generate_embedding (provider : Provider) (text task_type : String)
    (output_dimensionality : Nat) : Except String (List ℝ) :=
  (provider text task_type output_dimensionality).map normalized_embedding

/-- A row of the `academic_sources` table (`backend/models.py` lines 62-71).
The `embedding` column is modelled directly as the numeric vector that
pgvector's `<=>` operator reads from it. -/
structure AcademicSource where
  id : Int
  title : String
  authors : String
  publication_year : Int
  abstract : String
  full_text : String
  source_type : String
  embedding : List ℝ

/-- The column list of the similarity query:
`SELECT id, title, authors, publication_year, abstract, source_type`.
Neither `full_text` nor `embedding` is selected. -/
structure SourceRecord where
  id : Int
  title : String
  authors : String
  publication_year : Int
  abstract : String
  source_type : String
deriving DecidableEq

/-- Projection of a table row to the selected columns. -/
def selectColumns (r : AcademicSource) : SourceRecord :=
  ⟨r.id, r.title, r.authors, r.publication_year, r.abstract, r.source_type⟩

/-- Dot product of two vectors. -/
def dot (a b : List ℝ) : ℝ := (List.zipWith (fun x y => x * y) a b).sum

/-- pgvector's `<=>` operator: cosine distance `1 - a·b / (‖a‖·‖b‖)`. -/
def cosineDistance (a b : List ℝ) : ℝ :=
  1 - dot a b / (l2norm a * l2norm b)

/-- Contract of `ORDER BY embedding <=> '[...]'::vector`: the output is some
permutation of the table that is pairwise non-decreasing in cosine distance to
the query vector.  The statement has no secondary sort key, so rows at equal
distance may appear in either order. -/
def orderedByDistance (q : List ℝ) (db rows : List AcademicSource) : Prop :=
  db.Perm rows ∧ rows.Pairwise (fun a b =>
    cosineDistance a.embedding q ≤ cosineDistance b.embedding q)

/-- Contract of the full SELECT of `search_sources` (`rag_service.py` lines
39-44): a distance-ordered permutation of `academic_sources`, truncated by
`LIMIT :top_k`, each kept row projected to the selected columns. -/
def sqlTopK (q : List ℝ) (top_k : Nat) (db : List AcademicSource)
    (out : List SourceRecord) : Prop :=
  ∃ rows, orderedByDistance q db rows ∧ out = (rows.take top_k).map selectColumns

/-- Function `search_sources` of `backend/rag_service.py` (lines 29-51), as a
relation between its inputs and its outcome: the query embedding is generated
with task type `"RETRIEVAL_QUERY"` (and the default dimensionality 1536); a
provider exception propagates out unchanged; otherwise the similarity query
runs against the table and its rows are returned.  The serialization of the
query vector through a pgvector literal string is value-preserving and is
modelled as the vector itself. -/
def search_sources (provider : Provider) (db : List AcademicSource)
    (query : String) (top_k : Nat)
    (res : Except String (List SourceRecord)) : Prop :=
  (∃ e, generate_embedding provider query "RETRIEVAL_QUERY" 1536 = .error e ∧
    res = .error e) ∨
  (∃ qe out, generate_embedding provider query "RETRIEVAL_QUERY" 1536 = .ok qe ∧
    sqlTopK qe top_k db out ∧ res = .ok out)

/-- Endpoint `get_sources` of `backend/main.py` (lines 173-187): `/sources`
calls `search_sources(db, query)`, taking the default `top_k = 5`, and reshapes
each returned row tuple into an object with the same six fields — the identity
on `SourceRecord` in this model. -/
def get_sources (provider : Provider) (db : List AcademicSource) (query : String)
    (res : Except String (List SourceRecord)) : Prop :=
  search_sources provider db query 5 res

/-- A provider stub that always succeeds with the fixed raw vector `v`. -/
def okProvider (v : List ℝ) : Provider := fun _ _ _ => Except.ok v

/-- A provider stub that always fails with message `e`. -/
def errProvider (e : String) : Provider := fun _ _ _ => Except.error e

/-- A provider stub that succeeds only on the query task type. -/
def queryOnlyProvider : Provider := fun _ task_type _ =>
  if task_type = "RETRIEVAL_QUERY" then Except.ok [1, 0]
  else Except.error "not a query"

/-- A concrete catalogued source with unit embedding `[1, 0]`. -/
def srcA : AcademicSource :=
  ⟨1, "Alpha", "Ada", 2020, "about alpha", "full text alpha", "paper", [1, 0]⟩

/-- A concrete catalogued source with unit embedding `[0, 1]`. -/
def srcB : AcademicSource :=
  ⟨2, "Beta", "Bob", 2019, "about beta", "full text beta", "book", [0, 1]⟩

/-- A concrete catalogued source with unit embedding `[3/5, 4/5]`. -/
def srcC : AcademicSource :=
  ⟨3, "Gamma", "Cyd", 2021, "about gamma", "full text gamma", "paper", [3/5, 4/5]⟩

/-- A concrete catalogued source sharing the embedding `[1, 0]` of `srcA`, so
that the two rows tie in distance to any query vector. -/
def srcD : AcademicSource :=
  ⟨4, "Delta", "Dee", 2018, "about delta", "full text delta", "website", [1, 0]⟩

end

/-! ### Basic norm lemmas -/

theorem sumSq_nil : sumSq [] = 0 := by simp [sumSq]

theorem sumSq_cons (a : ℝ) (t : List ℝ) : sumSq (a :: t) = a * a + sumSq t := by
  simp [sumSq]

theorem sumSq_nonneg (v : List ℝ) : 0 ≤ sumSq v := by
  induction v with
  | nil => simp [sumSq_nil]
  | cons a t ih =>
    rw [sumSq_cons]
    have := mul_self_nonneg a
    linarith

theorem sumSq_pos_of_mem (v : List ℝ) (x : ℝ) (hx : x ∈ v) (hx0 : x ≠ 0) :
    0 < sumSq v := by
  induction v with
  | nil => cases hx
  | cons a t ih =>
    rw [sumSq_cons]
    rcases List.mem_cons.mp hx with h | h
    · have : 0 < x * x := mul_self_pos.mpr hx0
      have := sumSq_nonneg t
      subst h
      linarith
    · have := ih h
      have := mul_self_nonneg a
      linarith

theorem l2norm_nonneg (v : List ℝ) : 0 ≤ l2norm v := Real.sqrt_nonneg _

theorem l2norm_pos (v : List ℝ) (x : ℝ) (hx : x ∈ v) (hx0 : x ≠ 0) :
    0 < l2norm v :=
  Real.sqrt_pos.mpr (sumSq_pos_of_mem v x hx hx0)

theorem sumSq_map_div (v : List ℝ) (c : ℝ) :
    sumSq (v.map fun x => x / c) = sumSq v / (c * c) := by
  induction v with
  | nil => simp [sumSq_nil]
  | cons a t ih =>
    simp only [List.map_cons, sumSq_cons, ih, div_mul_div_comm, div_add_div_same]

theorem mul_self_l2norm (v : List ℝ) : l2norm v * l2norm v = sumSq v :=
  Real.mul_self_sqrt (sumSq_nonneg v)

theorem l2norm_normalized (v : List ℝ) (h : l2norm v ≠ 0) :
    l2norm (normalized_embedding v) = 1 := by
  have hs : sumSq v ≠ 0 := by
    intro h0
    exact h (by rw [l2norm, h0, Real.sqrt_zero])
  rw [l2norm, normalized_embedding, sumSq_map_div, mul_self_l2norm,
    div_self hs, Real.sqrt_one]

/-! ### Shape lemmas for `search_sources` -/

theorem search_sources_err (provider : Provider) (db : List AcademicSource)
    (query : String) (k : Nat) (e : String)
    (res : Except String (List SourceRecord))
    (hp : provider query "RETRIEVAL_QUERY" 1536 = .error e)
    (hs : search_sources provider db query k res) : res = .error e := by
  have hg : generate_embedding provider query "RETRIEVAL_QUERY" 1536 = .error e := by
    rw [generate_embedding, hp]; rfl
  rcases hs with ⟨e', he', hres⟩ | ⟨qe, out, hqe, _, _⟩
  · rw [hg] at he'
    cases he'
    exact hres
  · rw [hg] at hqe
    cases hqe

theorem search_sources_ok (provider : Provider) (db : List AcademicSource)
    (query : String) (k : Nat) (v : List ℝ)
    (res : Except String (List SourceRecord))
    (hp : provider query "RETRIEVAL_QUERY" 1536 = .ok v)
    (hs : search_sources provider db query k res) :
    ∃ out, sqlTopK (normalized_embedding v) k db out ∧ res = .ok out := by
  have hg : generate_embedding provider query "RETRIEVAL_QUERY" 1536
      = .ok (normalized_embedding v) := by
    rw [generate_embedding, hp]; rfl
  rcases hs with ⟨e', he', _⟩ | ⟨qe, out, hqe, hsql, hres⟩
  · rw [hg] at he'
    cases he'
  · rw [hg] at hqe
    cases hqe
    exact ⟨out, hsql, hres⟩

/-! ### Claim theorems: embedding generator -/

/-- C5: for a successful provider call returning a non-zero raw vector `v`, the
Embedding Generator returns exactly `v / ‖v‖`, and that vector has L2 norm 1
(exactly, in the real-number model). -/
theorem generate_embedding_normalizes (provider : Provider)
    (text task_type : String) (dim : Nat) (v : List ℝ) (x : ℝ)
    (hp : provider text task_type dim = .ok v) (hx : x ∈ v) (hx0 : x ≠ 0) :
    generate_embedding provider text task_type dim
      = .ok (v.map fun y => y / l2norm v) ∧
    l2norm (normalized_embedding v) = 1 := by
  constructor
  · rw [generate_embedding, hp]; rfl
  · exact l2norm_normalized v (ne_of_gt (l2norm_pos v x hx hx0))

/-- Witness for C5 at the concrete raw vector `[3, 4]`. -/
theorem generate_embedding_normalizes_witness :
    okProvider [(3:ℝ), 4] "t" "RETRIEVAL_DOCUMENT" 1536 = .ok [(3:ℝ), 4] ∧
    (3:ℝ) ∈ [(3:ℝ), 4] ∧ (3:ℝ) ≠ 0 ∧
    (generate_embedding (okProvider [(3:ℝ), 4]) "t" "RETRIEVAL_DOCUMENT" 1536
        = .ok ([(3:ℝ), 4].map fun y => y / l2norm [(3:ℝ), 4]) ∧
      l2norm (normalized_embedding [(3:ℝ), 4]) = 1) :=
  ⟨rfl, by simp, by norm_num,
    generate_embedding_normalizes (okProvider [(3:ℝ), 4]) "t" "RETRIEVAL_DOCUMENT"
      1536 [(3:ℝ), 4] 3 rfl (by simp) (by norm_num)⟩

/-- C8: a provider failure propagates out of the Embedding Generator as the
same error, and out of `search_sources` as that error; it is never converted
into a zero vector, an empty vector, or an empty (ok) search result. -/
theorem generate_embedding_propagates_provider_error :
    (∀ (provider : Provider) (text task_type : String) (dim : Nat) (e : String),
      provider text task_type dim = .error e →
      generate_embedding provider text task_type dim = .error e) ∧
    (∀ (provider : Provider) (db : List AcademicSource) (query : String)
        (k : Nat) (e : String) (res : Except String (List SourceRecord)),
      provider query "RETRIEVAL_QUERY" 1536 = .error e →
      search_sources provider db query k res → res = .error e) := by
  constructor
  · intro provider text task_type dim e hp
    rw [generate_embedding, hp]; rfl
  · intro provider db query k e res hp hs
    exact search_sources_err provider db query k e res hp hs

/-- Witness for C8 with a provider that always fails with message `"boom"`. -/
theorem generate_embedding_propagates_provider_error_witness :
    errProvider "boom" "q" "RETRIEVAL_QUERY" 1536 = .error "boom" ∧
    search_sources (errProvider "boom") [] "q" 5 (Except.error "boom") ∧
    generate_embedding (errProvider "boom") "q" "RETRIEVAL_QUERY" 1536
      = .error "boom" ∧
    (Except.error "boom" : Except String (List SourceRecord)) = .error "boom" := by
  have hs : search_sources (errProvider "boom") [] "q" 5 (Except.error "boom") :=
    Or.inl ⟨"boom", rfl, rfl⟩
  exact ⟨rfl, hs,
    generate_embedding_propagates_provider_error.1 (errProvider "boom") "q"
      "RETRIEVAL_QUERY" 1536 "boom" rfl,
    generate_embedding_propagates_provider_error.2 (errProvider "boom") [] "q" 5
      "boom" (Except.error "boom") rfl hs⟩

/-- C4 (code bug): when the provider returns the zero vector, the generator
does not fail: it divides the vector by its zero norm and returns successfully.
In the source, numpy emits only a RuntimeWarning and the function returns a
vector of NaNs inside a successful return; in the real-number model `x / 0 = 0`,
so the successful return carries the zero vector.  Either way the call does not
raise the defined error demanded by the specification. -/
theorem generate_embedding_zero_vector_no_error :
    generate_embedding (okProvider [(0:ℝ), 0]) "t" "RETRIEVAL_DOCUMENT" 1536
      = .ok [(0:ℝ), 0] ∧
    ∀ e, generate_embedding (okProvider [(0:ℝ), 0]) "t" "RETRIEVAL_DOCUMENT" 1536
      ≠ .error e := by
  constructor
  · show Except.ok (normalized_embedding [(0:ℝ), 0]) = _
    simp [normalized_embedding]
  · intro e
    show Except.ok (normalized_embedding [(0:ℝ), 0]) ≠ _
    simp

/-- C10: the generator never checks the provider vector's length against the
requested `output_dimensionality`: for every provider response `v` (of any
length, matching `dim` or not) the returned normalized vector has exactly the
length of `v`. -/
theorem generate_embedding_length_unchecked (provider : Provider)
    (text task_type : String) (dim : Nat) (v : List ℝ)
    (hp : provider text task_type dim = .ok v) :
    generate_embedding provider text task_type dim = .ok (normalized_embedding v) ∧
    (normalized_embedding v).length = v.length := by
  constructor
  · rw [generate_embedding, hp]; rfl
  · exact List.length_map v _

/-- Witness for C10: a 3-component raw vector against the requested
dimensionality 1536 is passed through with length 3. -/
theorem generate_embedding_length_unchecked_witness :
    okProvider [(1:ℝ), 2, 2] "t" "RETRIEVAL_DOCUMENT" 1536 = .ok [(1:ℝ), 2, 2] ∧
    (generate_embedding (okProvider [(1:ℝ), 2, 2]) "t" "RETRIEVAL_DOCUMENT" 1536
        = .ok (normalized_embedding [(1:ℝ), 2, 2]) ∧
      (normalized_embedding [(1:ℝ), 2, 2]).length = [(1:ℝ), 2, 2].length) ∧
    [(1:ℝ), 2, 2].length = 3 ∧ (3:Nat) ≠ 1536 :=
  ⟨rfl,
    generate_embedding_length_unchecked (okProvider [(1:ℝ), 2, 2]) "t"
      "RETRIEVAL_DOCUMENT" 1536 [(1:ℝ), 2, 2] rfl,
    rfl, by decide⟩

/-! ### An introduction rule for concrete searches -/

theorem search_sources_intro (provider : Provider) (db rows : List AcademicSource)
    (query : String) (k : Nat) (v : List ℝ)
    (hp : provider query "RETRIEVAL_QUERY" 1536 = .ok v)
    (hperm : db.Perm rows)
    (hsort : rows.Pairwise (fun a b =>
      cosineDistance a.embedding (normalized_embedding v)
        ≤ cosineDistance b.embedding (normalized_embedding v))) :
    search_sources provider db query k (.ok ((rows.take k).map selectColumns)) :=
  Or.inr ⟨normalized_embedding v, (rows.take k).map selectColumns,
    by rw [generate_embedding, hp]; rfl, ⟨rows, ⟨hperm, hsort⟩, rfl⟩, rfl⟩

/-! ### Claim theorems: result bound and argument handling -/

/-- C2: whenever the provider succeeds, `search_sources` returns (does not
raise) a row list of length `min k n` for corpus size `n`; in particular the
empty corpus yields the empty result. -/
theorem search_sources_result_bound (provider : Provider)
    (db : List AcademicSource) (query : String) (k : Nat) (v : List ℝ)
    (res : Except String (List SourceRecord))
    (hp : provider query "RETRIEVAL_QUERY" 1536 = .ok v)
    (hs : search_sources provider db query k res) :
    ∃ out, res = .ok out ∧ out.length = min k db.length ∧ (db = [] → out = []) := by
  obtain ⟨out, ⟨rows, ⟨hperm, _⟩, hout⟩, hres⟩ :=
    search_sources_ok provider db query k v res hp hs
  refine ⟨out, hres, ?_, ?_⟩
  · rw [hout, List.length_map, List.length_take, hperm.length_eq]
  · intro hdb
    subst hdb
    have hrows : rows = [] :=
      List.eq_nil_of_length_eq_zero (by rw [← hperm.length_eq]; rfl)
    subst hrows
    simpa using hout

/-- Witness for C2 on the empty corpus with `top_k = 5`. -/
theorem search_sources_result_bound_witness :
    okProvider [(1:ℝ), 0] "q" "RETRIEVAL_QUERY" 1536 = .ok [(1:ℝ), 0] ∧
    search_sources (okProvider [(1:ℝ), 0]) [] "q" 5 (.ok []) ∧
    ∃ out, (Except.ok [] : Except String (List SourceRecord)) = .ok out ∧
      out.length = min 5 ([] : List AcademicSource).length ∧
      (([] : List AcademicSource) = [] → out = []) := by
  have hs : search_sources (okProvider [(1:ℝ), 0]) [] "q" 5 (.ok []) :=
    search_sources_intro _ [] [] "q" 5 [(1:ℝ), 0] rfl (List.Perm.refl _)
      List.Pairwise.nil
  exact ⟨rfl, hs,
    search_sources_result_bound _ [] "q" 5 [(1:ℝ), 0] _ rfl hs⟩

/-- C3 (counterexample): `search_sources` performs no argument validation.
With a provider that always succeeds, `search("", 5)` succeeds with a normal
(here empty) result and `search("x", 0)` runs the datastore query and succeeds
with the empty result; with a failing provider, `search("", 5)` returns the
provider's error — so the provider is called on the empty query.  None of the
three calls fails with an invalid-argument error raised before the external
calls, contradicting the claim. -/
theorem search_sources_invalid_args_not_rejected :
    search_sources (okProvider [(1:ℝ), 0]) [] "" 5 (.ok []) ∧
    search_sources (errProvider "provider down") [] "" 5 (.error "provider down") ∧
    search_sources (okProvider [(1:ℝ), 0]) [srcA] "x" 0 (.ok []) := by
  refine ⟨?_, Or.inl ⟨"provider down", rfl, rfl⟩, ?_⟩
  · exact search_sources_intro _ [] [] "" 5 [(1:ℝ), 0] rfl (List.Perm.refl _)
      List.Pairwise.nil
  · exact search_sources_intro _ [srcA] [srcA] "x" 0 [(1:ℝ), 0] rfl
      (List.Perm.refl _) (by simp)

/-- C3 (amended): `search_sources` applies no special-casing to an empty query
or a non-positive `top_k`: the embedding provider is consulted even for the
empty query (its error becomes the result), and when the provider succeeds a
`top_k = 0` call returns `ok []` rather than raising any error. -/
theorem search_sources_no_argument_validation :
    (∀ (provider : Provider) (db : List AcademicSource) (k : Nat) (e : String)
        (res : Except String (List SourceRecord)),
      provider "" "RETRIEVAL_QUERY" 1536 = .error e →
      search_sources provider db "" k res → res = .error e) ∧
    (∀ (provider : Provider) (db : List AcademicSource) (query : String)
        (v : List ℝ) (res : Except String (List SourceRecord)),
      provider query "RETRIEVAL_QUERY" 1536 = .ok v →
      search_sources provider db query 0 res → res = .ok []) := by
  constructor
  · intro provider db k e res hp hs
    exact search_sources_err provider db "" k e res hp hs
  · intro provider db query v res hp hs
    obtain ⟨out, ⟨rows, _, hout⟩, hres⟩ :=
      search_sources_ok provider db query 0 v res hp hs
    rw [hres, hout]
    simp

/-- Witness for the amended C3: both behaviors at concrete inputs. -/
theorem search_sources_no_argument_validation_witness :
    errProvider "down" "" "RETRIEVAL_QUERY" 1536 = .error "down" ∧
    search_sources (errProvider "down") [] "" 5 (.error "down") ∧
    (Except.error "down" : Except String (List SourceRecord)) = .error "down" ∧
    okProvider [(1:ℝ), 0] "x" "RETRIEVAL_QUERY" 1536 = .ok [(1:ℝ), 0] ∧
    search_sources (okProvider [(1:ℝ), 0]) [srcA] "x" 0 (.ok []) ∧
    (Except.ok [] : Except String (List SourceRecord)) = .ok [] := by
  have hs1 : search_sources (errProvider "down") [] "" 5 (.error "down") :=
    Or.inl ⟨"down", rfl, rfl⟩
  have hs2 : search_sources (okProvider [(1:ℝ), 0]) [srcA] "x" 0 (.ok []) :=
    search_sources_intro _ [srcA] [srcA] "x" 0 [(1:ℝ), 0] rfl
      (List.Perm.refl _) (by simp)
  exact ⟨rfl, hs1,
    search_sources_no_argument_validation.1 (errProvider "down") [] 5 "down" _
      rfl hs1,
    rfl, hs2,
    search_sources_no_argument_validation.2 (okProvider [(1:ℝ), 0]) [srcA] "x"
      [(1:ℝ), 0] _ rfl hs2⟩

/-- C7: every record of a successful search result is the projection of some
corpus row to the six selected public columns, and that projection is
insensitive to the row's `full_text` and `embedding` values — so no result
record carries either. -/
theorem search_sources_projects_public_fields :
    (∀ (provider : Provider) (db : List AcademicSource) (query : String)
        (k : Nat) (out : List SourceRecord),
      search_sources provider db query k (.ok out) →
      ∀ rec ∈ out, ∃ row ∈ db, rec = selectColumns row) ∧
    (∀ (row : AcademicSource) (ft : String) (emb : List ℝ),
      selectColumns ⟨row.id, row.title, row.authors, row.publication_year,
        row.abstract, ft, row.source_type, emb⟩ = selectColumns row) := by
  constructor
  · intro provider db query k out hs rec hrec
    rcases hs with ⟨e, _, hres⟩ | ⟨qe, out', _, ⟨rows, ⟨hperm, _⟩, hout⟩, hres⟩
    · simp at hres
    · have hoo : out = out' := by
        injection hres
      subst hoo
      rw [hout] at hrec
      obtain ⟨row, hrow, hrec⟩ := List.mem_map.mp hrec
      exact ⟨row, hperm.mem_iff.mpr (List.mem_of_mem_take hrow), hrec.symm⟩
  · intro row ft emb
    rfl

/-- Witness for C7 on a one-row corpus. -/
theorem search_sources_projects_public_fields_witness :
    search_sources (okProvider [(1:ℝ), 0]) [srcA] "q" 1 (.ok [selectColumns srcA]) ∧
    (∀ rec ∈ [selectColumns srcA], ∃ row ∈ [srcA], rec = selectColumns row) ∧
    selectColumns ⟨srcA.id, srcA.title, srcA.authors, srcA.publication_year,
      srcA.abstract, "replaced full text", srcA.source_type, [9]⟩
      = selectColumns srcA := by
  have hs : search_sources (okProvider [(1:ℝ), 0]) [srcA] "q" 1
      (.ok [selectColumns srcA]) :=
    search_sources_intro _ [srcA] [srcA] "q" 1 [(1:ℝ), 0] rfl
      (List.Perm.refl _) (by simp)
  exact ⟨hs,
    search_sources_projects_public_fields.1 _ [srcA] "q" 1 _ hs,
    search_sources_projects_public_fields.2 srcA "replaced full text" [9]⟩

/-- C9: the `/sources` endpoint is exactly `search_sources` at the fixed
default bound `top_k = 5` (the caller passes only the query text), and its
outcome depends on the provider only through the provider's answer at the
query task type `"RETRIEVAL_QUERY"` and dimensionality 1536 — the HTTP caller
can select neither a different `top_k` nor a different task type. -/
theorem get_sources_defaults :
    (∀ (provider : Provider) (db : List AcademicSource) (query : String)
        (res : Except String (List SourceRecord)),
      get_sources provider db query res ↔ search_sources provider db query 5 res) ∧
    (∀ (p1 p2 : Provider) (db : List AcademicSource) (query : String)
        (res : Except String (List SourceRecord)),
      p1 query "RETRIEVAL_QUERY" 1536 = p2 query "RETRIEVAL_QUERY" 1536 →
      (get_sources p1 db query res ↔ get_sources p2 db query res)) := by
  constructor
  · intro provider db query res
    exact Iff.rfl
  · intro p1 p2 db query res h
    unfold get_sources search_sources generate_embedding
    rw [h]

/-- Witness for C9: two providers that agree on the query task type but differ
elsewhere induce the same endpoint behavior. -/
theorem get_sources_defaults_witness :
    okProvider [(1:ℝ), 0] "q" "RETRIEVAL_QUERY" 1536
      = queryOnlyProvider "q" "RETRIEVAL_QUERY" 1536 ∧
    (get_sources (okProvider [(1:ℝ), 0]) [] "q" (.ok [])
      ↔ get_sources queryOnlyProvider [] "q" (.ok [])) ∧
    (get_sources (okProvider [(1:ℝ), 0]) [] "q" (.ok [])
      ↔ search_sources (okProvider [(1:ℝ), 0]) [] "q" 5 (.ok [])) := by
  have h : okProvider [(1:ℝ), 0] "q" "RETRIEVAL_QUERY" 1536
      = queryOnlyProvider "q" "RETRIEVAL_QUERY" 1536 := by
    simp [okProvider, queryOnlyProvider]
  exact ⟨h, get_sources_defaults.2 _ _ [] "q" _ h, get_sources_defaults.1 _ [] "q" _⟩

/-! ### Concrete norms and distances for the example corpus -/

theorem srcA_emb : srcA.embedding = [(1:ℝ), 0] := rfl

theorem srcB_emb : srcB.embedding = [(0:ℝ), 1] := rfl

theorem srcC_emb : srcC.embedding = [(3:ℝ)/5, 4/5] := rfl

theorem srcD_emb : srcD.embedding = [(1:ℝ), 0] := rfl

theorem l2norm_e1 : l2norm [(1:ℝ), 0] = 1 := by
  have h : sumSq [(1:ℝ), 0] = 1 := by norm_num [sumSq]
  rw [l2norm, h, Real.sqrt_one]

theorem l2norm_e2 : l2norm [(0:ℝ), 1] = 1 := by
  have h : sumSq [(0:ℝ), 1] = 1 := by norm_num [sumSq]
  rw [l2norm, h, Real.sqrt_one]

theorem l2norm_mid : l2norm [(3:ℝ)/5, 4/5] = 1 := by
  have h : sumSq [(3:ℝ)/5, 4/5] = 1 := by norm_num [sumSq]
  rw [l2norm, h, Real.sqrt_one]

theorem normalized_e1 : normalized_embedding [(1:ℝ), 0] = [1, 0] := by
  rw [normalized_embedding, l2norm_e1]
  norm_num

theorem dist_e1_e1 : cosineDistance [(1:ℝ), 0] [1, 0] = 0 := by
  rw [cosineDistance, l2norm_e1]
  norm_num [dot]

theorem dist_e2_e1 : cosineDistance [(0:ℝ), 1] [1, 0] = 1 := by
  rw [cosineDistance, l2norm_e2, l2norm_e1]
  norm_num [dot]

theorem dist_mid_e1 : cosineDistance [(3:ℝ)/5, 4/5] [1, 0] = 2/5 := by
  rw [cosineDistance, l2norm_mid, l2norm_e1]
  norm_num [dot]

/-! ### Claim theorem: ranking -/

/-- C1: a successful `search_sources` call splits some permutation of the
corpus into a prefix `front` and a remainder `rest` such that the result is
exactly the projection of `front`, `front` has `min top_k n` rows, `front` is
pairwise non-decreasing in cosine distance to the (normalized) query vector,
and every row of `front` is at most as distant as every remaining row — i.e.
the corpus is ranked ascending by cosine distance and the first `top_k` rows
are returned in that order. -/
theorem search_sources_ranks_by_cosine_distance (provider : Provider)
    (db : List AcademicSource) (query : String) (k : Nat) (v : List ℝ)
    (out : List SourceRecord)
    (hp : provider query "RETRIEVAL_QUERY" 1536 = .ok v)
    (hs : search_sources provider db query k (.ok out)) :
    ∃ front rest : List AcademicSource,
      db.Perm (front ++ rest) ∧
      out = front.map selectColumns ∧
      front.length = min k db.length ∧
      front.Pairwise (fun a b =>
        cosineDistance a.embedding (normalized_embedding v)
          ≤ cosineDistance b.embedding (normalized_embedding v)) ∧
      ∀ a ∈ front, ∀ b ∈ rest,
        cosineDistance a.embedding (normalized_embedding v)
          ≤ cosineDistance b.embedding (normalized_embedding v) := by
  obtain ⟨out', ⟨rows, ⟨hperm, hsort⟩, hout⟩, hres⟩ :=
    search_sources_ok provider db query k v (.ok out) hp hs
  have hoo : out = out' := by injection hres
  subst hoo
  refine ⟨rows.take k, rows.drop k, ?_, hout, ?_, ?_, ?_⟩
  · rw [List.take_append_drop]
    exact hperm
  · rw [List.length_take, hperm.length_eq]
  · exact List.Pairwise.sublist (List.take_sublist k rows) hsort
  · have h := List.pairwise_append.mp
      (show ((rows.take k) ++ (rows.drop k)).Pairwise _ by
        rw [List.take_append_drop]; exact hsort)
    exact h.2.2

/-- Witness for C1: the spec's end-to-end example.  Corpus
`A = [1,0]`, `B = [0,1]`, `C = [3/5, 4/5]`, raw query vector `[1,0]`,
`top_k = 2`: the result is `[A, C]` in that order
(`dist(A) = 0 < dist(C) = 2/5 < dist(B) = 1`). -/
theorem search_sources_ranks_by_cosine_distance_witness :
    okProvider [(1:ℝ), 0] "q" "RETRIEVAL_QUERY" 1536 = .ok [(1:ℝ), 0] ∧
    search_sources (okProvider [(1:ℝ), 0]) [srcA, srcB, srcC] "q" 2
      (.ok [selectColumns srcA, selectColumns srcC]) ∧
    ∃ front rest : List AcademicSource,
      [srcA, srcB, srcC].Perm (front ++ rest) ∧
      [selectColumns srcA, selectColumns srcC] = front.map selectColumns ∧
      front.length = min 2 [srcA, srcB, srcC].length ∧
      front.Pairwise (fun a b =>
        cosineDistance a.embedding (normalized_embedding [(1:ℝ), 0])
          ≤ cosineDistance b.embedding (normalized_embedding [(1:ℝ), 0])) ∧
      ∀ a ∈ front, ∀ b ∈ rest,
        cosineDistance a.embedding (normalized_embedding [(1:ℝ), 0])
          ≤ cosineDistance b.embedding (normalized_embedding [(1:ℝ), 0]) := by
  have hsort : [srcA, srcC, srcB].Pairwise (fun a b =>
      cosineDistance a.embedding (normalized_embedding [(1:ℝ), 0])
        ≤ cosineDistance b.embedding (normalized_embedding [(1:ℝ), 0])) := by
    simp only [normalized_e1]
    refine List.Pairwise.cons ?_ (List.Pairwise.cons ?_ ?_)
    · intro b hb
      rcases List.mem_cons.mp hb with h | h
      · subst h
        rw [srcA_emb, srcC_emb, dist_e1_e1, dist_mid_e1]
        norm_num
      · have hb2 : b = srcB := by simpa using h
        subst hb2
        rw [srcA_emb, srcB_emb, dist_e1_e1, dist_e2_e1]
        norm_num
    · intro b hb
      have hb2 : b = srcB := by simpa using hb
      subst hb2
      rw [srcC_emb, srcB_emb, dist_mid_e1, dist_e2_e1]
      norm_num
    · simp
  have hs : search_sources (okProvider [(1:ℝ), 0]) [srcA, srcB, srcC] "q" 2
      (.ok [selectColumns srcA, selectColumns srcC]) :=
    search_sources_intro (okProvider [(1:ℝ), 0]) [srcA, srcB, srcC]
      [srcA, srcC, srcB] "q" 2 [(1:ℝ), 0] rfl
      (List.Perm.cons srcA (List.Perm.swap srcC srcB [])) hsort
  exact ⟨rfl, hs,
    search_sources_ranks_by_cosine_distance (okProvider [(1:ℝ), 0])
      [srcA, srcB, srcC] "q" 2 [(1:ℝ), 0] _ rfl hs⟩

/-! ### Claim theorems: tie handling -/

theorem tie_ordered_AD :
    orderedByDistance (normalized_embedding [(1:ℝ), 0]) [srcA, srcD]
      [srcA, srcD] := by
  refine ⟨List.Perm.refl _, List.Pairwise.cons ?_ (by simp)⟩
  intro b hb
  have hb2 : b = srcD := by simpa using hb
  subst hb2
  rw [srcA_emb, srcD_emb]

theorem tie_ordered_DA :
    orderedByDistance (normalized_embedding [(1:ℝ), 0]) [srcA, srcD]
      [srcD, srcA] := by
  refine ⟨List.Perm.swap srcD srcA [], List.Pairwise.cons ?_ (by simp)⟩
  intro b hb
  have hb2 : b = srcA := by simpa using hb
  subst hb2
  rw [srcA_emb, srcD_emb]

/-- C6 (counterexample): the SQL statement orders by distance only, with no
secondary key, so for a corpus holding two rows with identical embeddings
(hence identical distance to any query) both result orders satisfy the
query contract for the very same call — the returned order under ties is not
determined, contradicting the claim that any two calls return the same order. -/
theorem search_sources_tie_order_not_deterministic :
    search_sources (okProvider [(1:ℝ), 0]) [srcA, srcD] "x" 2
      (.ok [selectColumns srcA, selectColumns srcD]) ∧
    search_sources (okProvider [(1:ℝ), 0]) [srcA, srcD] "x" 2
      (.ok [selectColumns srcD, selectColumns srcA]) ∧
    [selectColumns srcA, selectColumns srcD]
      ≠ [selectColumns srcD, selectColumns srcA] := by
  refine ⟨?_, ?_, ?_⟩
  · exact search_sources_intro _ [srcA, srcD] [srcA, srcD] "x" 2 [(1:ℝ), 0]
      rfl tie_ordered_AD.1 tie_ordered_AD.2
  · exact search_sources_intro _ [srcA, srcD] [srcD, srcA] "x" 2 [(1:ℝ), 0]
      rfl tie_ordered_DA.1 tie_ordered_DA.2
  · intro h
    have h1 : selectColumns srcA = selectColumns srcD := by
      injection h
    have h2 : (1:Int) = 4 := congrArg SourceRecord.id h1
    norm_num at h2

/-- C6 (amended): the ordering key is cosine distance alone.  For a fixed
corpus and query vector, any two outcomes of the ordering contract agree on
the ascending sequence of distances of the returned rows (so the distance
ranking is deterministic), but rows at identical distance may be returned in
either order — the row order itself is not guaranteed to be the same across
calls, as there is no secondary sort key. -/
theorem search_sources_distance_sequence_deterministic
    (q : List ℝ) (db rows1 rows2 : List AcademicSource) (k : Nat)
    (h1 : orderedByDistance q db rows1) (h2 : orderedByDistance q db rows2) :
    ((rows1.take k).map fun r => cosineDistance r.embedding q)
      = ((rows2.take k).map fun r => cosineDistance r.embedding q) := by
  obtain ⟨hp1, hs1⟩ := h1
  obtain ⟨hp2, hs2⟩ := h2
  have hperm : ((rows1.map fun r => cosineDistance r.embedding q)).Perm
      (rows2.map fun r => cosineDistance r.embedding q) :=
    (hp1.symm.trans hp2).map _
  have hm1 : ((rows1.map fun r => cosineDistance r.embedding q)).Sorted (· ≤ ·) :=
    List.pairwise_map.mpr hs1
  have hm2 : ((rows2.map fun r => cosineDistance r.embedding q)).Sorted (· ≤ ·) :=
    List.pairwise_map.mpr hs2
  have heq := List.eq_of_perm_of_sorted hperm hm1 hm2
  rw [List.map_take, List.map_take, heq]

/-- Witness for the amended C6 at the tied two-row corpus. -/
theorem search_sources_distance_sequence_deterministic_witness :
    orderedByDistance (normalized_embedding [(1:ℝ), 0]) [srcA, srcD]
      [srcA, srcD] ∧
    orderedByDistance (normalized_embedding [(1:ℝ), 0]) [srcA, srcD]
      [srcD, srcA] ∧
    (([srcA, srcD].take 2).map fun r =>
        cosineDistance r.embedding (normalized_embedding [(1:ℝ), 0]))
      = (([srcD, srcA].take 2).map fun r =>
        cosineDistance r.embedding (normalized_embedding [(1:ℝ), 0])) :=
  ⟨tie_ordered_AD, tie_ordered_DA,
    search_sources_distance_sequence_deterministic _ _ _ _ 2
      tie_ordered_AD tie_ordered_DA⟩
